import Mathlib

/-
Verification development for the browser automation engine of the oracle
repository.  The definitions below are shallow embeddings of the TypeScript
sources:

  - src/browser/cookies.ts      cookie normalization, cookie sync, the one-shot
                                sqlite rebuild gate and module loading
  - src/browser/index.ts        runBrowserMode, isWebSocketClosureError
  - src/browser/pageActions.ts  model-option matchers and the response settle
                                window (the page-side script built by
                                buildResponseObserverExpression)
  - src/browser/config.ts       resolveBrowserConfig and its defaults

Wall-clock timing, the live DOM and the devtools transport are abstracted into
explicit environment records that supply the outcome of every effectful step;
control flow, constants, string processing and error classification are
translated directly from the sources.  Timestamps (cookie expirations) are
modelled as rational numbers; JavaScript Math.round is the floor of x + 1/2,
which is exactly Mathlib round on the rationals.
-/

namespace Oracle

/-! JavaScript string primitives used by the embedded code. -/

/-- Whitespace as matched by the regex class backslash-s and by String.trim
on the inputs that occur here (ASCII whitespace). -/
def isJsWs (c : Char) : Bool :=
  c == ' ' || c == '\t' || c == '\n' || c == '\r'

/-- Lowercasing as performed by toLowerCase on ASCII input. -/
def jsToLower (s : String) : String :=
  String.mk (s.data.map Char.toLower)

/-- Trimming as performed by String.prototype.trim. -/
def jsTrim (s : String) : String :=
  String.mk (((s.data.dropWhile isJsWs).reverse.dropWhile isJsWs).reverse)

/-- Substring test over character lists; hay contains needle. -/
def listIncl (needle : List Char) : List Char → Bool
  | [] => needle.isEmpty
  | c :: t => needle.isPrefixOf (c :: t) || listIncl needle t

/-- JavaScript String.prototype.includes. -/
def strIncludes (hay needle : String) : Bool :=
  listIncl needle.data hay.data

/-- Replace every maximal run of characters satisfying p by the replacement r:
the effect of String.prototype.replace with a global one-or-more regex.  The
inRun flag records whether the previous character belonged to a run. -/
def replaceRunsGo (p : Char → Bool) (r : List Char) (inRun : Bool) : List Char → List Char
  | [] => []
  | c :: cs =>
    if p c then
      if inRun then replaceRunsGo p r true cs
      else r ++ replaceRunsGo p r true cs
    else c :: replaceRunsGo p r false cs

def replaceRuns (p : Char → Bool) (r : List Char) (l : List Char) : List Char :=
  replaceRunsGo p r false l

/-- Split on runs of whitespace, dropping empty pieces: the effect of
split on a one-or-more whitespace regex followed by filter(Boolean). -/
def splitWsAux : List Char → List Char → List String
  | [], acc => if acc.isEmpty then [] else [String.mk acc.reverse]
  | c :: t, acc =>
    if isJsWs c then
      if acc.isEmpty then splitWsAux t []
      else String.mk acc.reverse :: splitWsAux t []
    else splitWsAux t (c :: acc)

def splitWs (s : String) : List String :=
  splitWsAux s.data []

/-! Cookie normalization: src/browser/cookies.ts, normalizeCookie and
normalizeExpiration.  The puppeteer-format cookie read from the real Chrome
profile carries optional fields and capitalized Secure / HttpOnly flags. -/

structure PuppeteerCookie where
  name : String
  value : String
  domain : Option String
  path : Option String
  expires : Option ℚ
  Secure : Option Bool
  HttpOnly : Option Bool
deriving DecidableEq, Repr

structure CookieParam where
  name : String
  value : String
  domain : String
  path : String
  expires : Option ℚ
  secure : Bool
  httpOnly : Bool
deriving DecidableEq, Repr

/-- JavaScript Math.round: the floor of x + 1/2, computed by floor division on
the numerator and denominator (the theorem jsRound_eq_round below checks this
agrees with Mathlib round, which is also the floor of x + 1/2). -/
def jsRound (q : ℚ) : ℤ :=
  (2 * q.num + (q.den : ℤ)) / (2 * (q.den : ℤ))

/-- normalizeExpiration, src/browser/cookies.ts lines 107 to 122.  A missing,
zero or non-positive value gives undefined; a value above 10 to the 12 is
treated as a Windows FILETIME style microsecond count and shifted by the epoch
difference 11644473600; a value above 10 to the 9 is treated as milliseconds;
everything else is rounded to whole seconds.  The NaN guard of the source has
no counterpart because rationals are never NaN. -/
def normalizeExpiration : Option ℚ → Option ℚ
  | none => none
  | some v =>
    if v = 0 then none
    else if v ≤ 0 then none
    else if 1000000000000 < v then some ((jsRound (v / 1000000 - 11644473600) : ℤ) : ℚ)
    else if 1000000000 < v then some ((jsRound (v / 1000) : ℤ) : ℚ)
    else some ((jsRound v : ℤ) : ℚ)

/-- normalizeCookie, src/browser/cookies.ts lines 75 to 94.  The domain ternary
of the source keeps a present domain whether or not it starts with a dot and
falls back to the request hostname only when the domain is absent; the
conditional is kept in that shape. -/
def normalizeCookie (cookie : PuppeteerCookie) (fallbackHost : String) : Option CookieParam :=
  if cookie.name = "" then none
  else some {
    name := cookie.name
    value := cookie.value
    domain :=
      match cookie.domain with
      | some d => if d.startsWith "." then d else d
      | none => fallbackHost
    path := cookie.path.getD "/"
    expires := normalizeExpiration cookie.expires
    secure := cookie.Secure.getD true
    httpOnly := cookie.HttpOnly.getD false }

/-- View of an already-normalized cookie as a puppeteer-format input, mapping
each normalized field back onto the field normalizeCookie reads. -/
def cookieParamToPuppeteer (n : CookieParam) : PuppeteerCookie :=
  { name := n.name
    value := n.value
    domain := some n.domain
    path := some n.path
    expires := n.expires
    Secure := some n.secure
    HttpOnly := some n.httpOnly }

/-- The per-cookie url attached by syncCookies before Network.setCookie,
src/browser/cookies.ts lines 23 to 28. -/
def cookieSyncUrl (url : String) (c : CookieParam) : Option String :=
  if c.domain = "" || c.domain = "localhost" then some url
  else if !(c.domain.startsWith ".") then some ("https://" ++ c.domain)
  else none

/-! Cookie sync: src/browser/cookies.ts, syncCookies (lines 9 to 48).  The
read of the real profile and each Network.setCookie round trip are supplied by
an environment; an error record carries the message and whether it is the
distinguishable ChromeCookieSyncError. -/

structure SyncError where
  message : String
  isCookieSyncError : Bool
deriving DecidableEq, Repr

structure SyncWorld where
  readResult : Except SyncError (List CookieParam)
  setCookie : Nat → Except String Bool

inductive CookieSyncEvent where
  | setCookieCall (i : Nat)
  | logSetCookieFailure (i : Nat) (msg : String)
  | logWarnContinuing (msg : String)
deriving DecidableEq, Repr

/-- The for loop of syncCookies: one setCookie per cookie, counting successful
applications, logging and skipping per-cookie throws. -/
def applyCookiesFrom (w : SyncWorld) : Nat → Nat → Nat × List CookieSyncEvent
  | _, 0 => (0, [])
  | i, r + 1 =>
    match w.setCookie i with
    | .ok true =>
      let (n, ev) := applyCookiesFrom w (i + 1) r
      (n + 1, .setCookieCall i :: ev)
    | .ok false =>
      let (n, ev) := applyCookiesFrom w (i + 1) r
      (n, .setCookieCall i :: ev)
    | .error m =>
      let (n, ev) := applyCookiesFrom w (i + 1) r
      (n, .setCookieCall i :: .logSetCookieFailure i m :: ev)

/-- syncCookies, src/browser/cookies.ts lines 9 to 48. -/
def syncCookies (w : SyncWorld) (allowErrors : Bool) :
    Except SyncError Nat × List CookieSyncEvent :=
  match w.readResult with
  | .ok cookies =>
    if cookies.length = 0 then (.ok 0, [])
    else
      let (applied, ev) := applyCookiesFrom w 0 cookies.length
      (.ok applied, ev)
  | .error e =>
    if allowErrors then (.ok 0, [.logWarnContinuing e.message])
    else (.error (if e.isCookieSyncError then e else { message := e.message, isCookieSyncError := true }), [])

/-- Count of successfully applied cookies among the first n indices. -/
def countApplied (w : SyncWorld) (n : Nat) : Nat :=
  (List.range n).countP (fun i => match w.setCookie i with | .ok true => true | _ => false)

/-! One-shot sqlite rebuild and module loading: src/browser/cookies.ts,
attemptSqliteRebuild (lines 191 to 230), loadChromeCookiesModule (lines 136
to 160) and isSqliteBindingError (lines 179 to 189). -/

structure RebuildEnv where
  allowRebuild : Bool
  spawnExitCode : Option Int

inductive ImportResult where
  | ok (exposesGetCookies : Bool)
  | err (message : String)

/-- isSqliteBindingError: the three case-insensitive patterns of the source. -/
def isSqliteBindingError (msg : String) : Bool :=
  let m := jsToLower msg
  strIncludes m "node_sqlite3.node" || strIncludes m "bindings file" ||
    strIncludes m "module did not self-register"

/-- attemptSqliteRebuild: the module-level attemptedSqliteRebuild flag is
threaded explicitly.  Returns whether the rebuild succeeded, the new flag and
how many rebuild subprocesses were spawned.  The guard returns immediately when
the flag is already set; the flag is set before the environment opt-in check so
even a refused attempt consumes the single allowance; a spawn happens only when
ORACLE_ALLOW_SQLITE_REBUILD is the string 1, and the rebuild succeeds exactly
when the subprocess exits with code 0 (a spawn error resolves false). -/
def attemptSqliteRebuild (env : RebuildEnv) (attempted : Bool) : Bool × Bool × Nat :=
  if attempted then (false, true, 0)
  else if !env.allowRebuild then (false, true, 0)
  else (env.spawnExitCode == some 0, true, 1)

def unableToLoadError : SyncError :=
  { message := "Unable to load chrome-cookies-secure. Cookie copy is required.", isCookieSyncError := true }

def noGetCookiesError : SyncError :=
  { message := "chrome-cookies-secure did not expose getCookiesPromised", isCookieSyncError := true }

/-- loadChromeCookiesModule.  The source retries itself after a successful
rebuild; since a rebuild can succeed only while the attempted flag is still
false and the retry runs with the flag set, the recursion depth is at most 2,
so the definition takes fuel and the wrapper below passes 2.  imports gives
the outcome of the nth dynamic import. -/
def loadModuleFuel (imports : Nat → ImportResult) (env : RebuildEnv) :
    Nat → Bool → Nat → Except SyncError Unit × Bool × Nat
  | 0, attempted, _ => (.error unableToLoadError, attempted, 0)
  | fuel + 1, attempted, idx =>
    match imports idx with
    | .ok exposes =>
      if exposes then (.ok (), attempted, 0)
      else (.error noGetCookiesError, attempted, 0)
    | .err m =>
      if isSqliteBindingError m then
        let (rebuilt, attempted2, spawns) := attemptSqliteRebuild env attempted
        if rebuilt then
          let (res, attempted3, spawns2) := loadModuleFuel imports env fuel attempted2 (idx + 1)
          (res, attempted3, spawns + spawns2)
        else (.error unableToLoadError, attempted2, spawns)
      else (.error unableToLoadError, attempted, 0)

def loadChromeCookiesModule (imports : Nat → ImportResult) (env : RebuildEnv)
    (attempted : Bool) : Except SyncError Unit × Bool × Nat :=
  loadModuleFuel imports env 2 attempted 0

/-- A whole process lifetime: a sequence of module loads threading the
module-level flag, accumulating the total number of spawned rebuilds. -/
def processLoads (env : RebuildEnv) : Bool → List (Nat → ImportResult) → Bool × Nat
  | attempted, [] => (attempted, 0)
  | attempted, im :: rest =>
    let (_, attempted2, spawns) := loadChromeCookiesModule im env attempted
    let (attemptedF, spawnsRest) := processLoads env attempted2 rest
    (attemptedF, spawns + spawnsRest)

/-! Model-option matching: src/browser/pageActions.ts,
buildModelMatchersLiteral (lines 345 to 393) and the normalizeText and
matching logic of the page script built by buildModelSelectionExpression
(lines 231 to 343). -/

structure ModelMatchers where
  labelTokens : List String
  testIdTokens : List String
deriving DecidableEq, Repr

/-- The push helper of buildModelMatchersLiteral: trim, skip empty, add to the
insertion-ordered set. -/
def pushToken (v : String) (l : List String) : List String :=
  let n := jsTrim v
  if n = "" then l else if l.contains n then l else l ++ [n]

/-- Collapse whitespace runs to a single space: replace with a global
one-or-more whitespace regex and a space replacement. -/
def collapseWs (s : String) : String :=
  String.mk (replaceRuns isJsWs [' '] s.data)

/-- buildModelMatchersLiteral, translated token by token from the source. -/
def buildModelMatchersLiteral (targetModel : String) : ModelMatchers :=
  let base := jsToLower (jsTrim targetModel)
  let collapsed := String.mk (base.data.filter (fun c => !isJsWs c))
  let dotless := String.mk (base.data.filter (fun c => c != '.'))
  let hyphenated := String.mk (replaceRuns isJsWs ['-'] base.data)
  let l1 := pushToken base []
  let l2 := pushToken (collapseWs base) l1
  let l3 := pushToken collapsed l2
  let l4 := pushToken dotless l3
  let l5 := pushToken ("chatgpt " ++ base) l4
  let l6 := pushToken ("chatgpt " ++ dotless) l5
  let l7 := pushToken ("gpt " ++ base) l6
  let l8 := pushToken ("gpt " ++ dotless) l7
  let l9 := (splitWs base).foldl (fun acc tok => pushToken tok acc) l8
  let t1 := pushToken hyphenated []
  let t2 := pushToken collapsed t1
  let t3 := pushToken dotless t2
  let t4 := pushToken ("model-switcher-" ++ hyphenated) t3
  let t5 := pushToken ("model-switcher-" ++ collapsed) t4
  let lab := if l9.isEmpty then [base] else l9
  let tid := if t5.isEmpty then [hyphenated] else t5
  { labelTokens := lab.filter (fun s => s != "")
    testIdTokens := tid.filter (fun s => s != "") }

/-- The normalizeText helper of the page script: lowercase, replace runs of
characters outside a to z and 0 to 9 by a single space, collapse whitespace
runs, trim. -/
def isLowerAlnum (c : Char) : Bool :=
  ('a' ≤ c && c ≤ 'z') || ('0' ≤ c && c ≤ '9')

def normalizeTextJs (value : String) : String :=
  let lowered := (jsToLower value).data
  let replaced := replaceRuns (fun c => !isLowerAlnum c) [' '] lowered
  jsTrim (String.mk (replaceRuns isJsWs [' '] replaced))

/-- matchesTestId of the page script: the lowercased data-testid attribute is
non-empty and contains one of the test id tokens. -/
def optionMatchesTestId (m : ModelMatchers) (testidAttr : String) : Bool :=
  let testid := jsToLower testidAttr
  testid != "" && m.testIdTokens.any (fun id => strIncludes testid id)

/-- matchesText of the page script: some label token normalizes to a non-empty
string contained in the normalized visible text. -/
def optionMatchesLabel (m : ModelMatchers) (labelText : String) : Bool :=
  let normalizedText := normalizeTextJs labelText
  m.labelTokens.any (fun token =>
    let nt := normalizeTextJs token
    nt != "" && strIncludes normalizedText nt)

/-! The settle window: the waitForSettle closure of the page script built by
buildResponseObserverExpression, src/browser/pageActions.ts lines 699 to 718.
Time is discrete in milliseconds from entry into the settle window; extract
gives the result of extractFromTurns at a given time and stopVisible whether
the stop-generating indicator is present.  The returned triple is the final
snapshot, the time at which the loop exited, and the list of times at which a
re-extraction was performed. -/

structure SettleSnapshot where
  text : String
deriving DecidableEq, Repr

def settleWindowMs : Nat := 5000
def settleIntervalMs : Nat := 400

/-- One while-loop execution.  The loop of the source is governed solely by
the deadline check against settleWindowMs; the fuel argument only bounds the
recursion depth and is chosen below so that it can never run out before the
deadline check exits the loop (whenever settleWindowMs is at most
t + settleIntervalMs * fuel, the fuel-exhaustion branch coincides with the
deadline exit, and the top-level fuel settleFuel satisfies that at t = 0). -/
def waitForSettleGo (extract : Nat → Option SettleSnapshot) (stopVisible : Nat → Bool) :
    Nat → Nat → SettleSnapshot → Nat → SettleSnapshot × Nat × List Nat
  | 0, t, latest, _ => (latest, t, [])
  | fuel + 1, t, latest, lastLen =>
    if t < settleWindowMs then
      let t2 := t + settleIntervalMs
      let step : SettleSnapshot × Nat :=
        match extract t2 with
        | some r => if lastLen ≤ r.text.length then (r, r.text.length) else (latest, lastLen)
        | none => (latest, lastLen)
      if stopVisible t2 then
        let rest := waitForSettleGo extract stopVisible fuel t2 step.1 step.2
        (rest.1, rest.2.1, t2 :: rest.2.2)
      else (step.1, t2, [t2])
    else (latest, t, [])

def settleFuel : Nat := settleWindowMs / settleIntervalMs + 1

def waitForSettle (extract : Nat → Option SettleSnapshot) (stopVisible : Nat → Bool)
    (snapshot : SettleSnapshot) : SettleSnapshot × Nat × List Nat :=
  waitForSettleGo extract stopVisible settleFuel 0 snapshot snapshot.text.length

/-- The settle scenario of the spec: the answer text is present from the start
and the stop-generating indicator stays visible for the first 2 seconds. -/
def scenarioExtract : Nat → Option SettleSnapshot := fun _ => some { text := "Hi there" }

def scenarioStopVisible : Nat → Bool := fun t => t < 2000

/-! The run coordinator: runBrowserMode, src/browser/index.ts lines 26 to 210,
with resolveBrowserConfig and its defaults from src/browser/config.ts.  Every
effect is recorded as an event; the outcome of each asynchronous step comes
from a StepOutcomes environment.  disconnectEmitted models whether the devtools
connection emitted its disconnect event during the run (the handler only sets
the connectionClosedUnexpectedly flag). -/

structure BrowserAutomationConfig where
  chromeProfile : Option String := none
  chromePath : Option String := none
  url : Option String := none
  timeoutMs : Option Nat := none
  inputTimeoutMs : Option Nat := none
  cookieSync : Option Bool := none
  headless : Option Bool := none
  keepBrowser : Option Bool := none
  hideWindow : Option Bool := none
  desiredModel : Option String := none
  debug : Option Bool := none
  allowCookieErrors : Option Bool := none
deriving DecidableEq, Repr

structure ResolvedBrowserConfig where
  chromeProfile : Option String
  chromePath : Option String
  url : String
  timeoutMs : Nat
  inputTimeoutMs : Nat
  cookieSync : Bool
  headless : Bool
  keepBrowser : Bool
  hideWindow : Bool
  desiredModel : Option String
  debug : Bool
  allowCookieErrors : Bool
deriving DecidableEq, Repr

/-- Modelled from the spec: the CHATGPT_URL constant lives in
src/browser/constants.ts, which is not among the sources; the spec and
docs/browser-mode.md say browser mode navigates to chatgpt.com. -/
def CHATGPT_URL : String := "https://chatgpt.com/"

/-- DEFAULT_BROWSER_CONFIG, src/browser/config.ts. -/
def DEFAULT_BROWSER_CONFIG : ResolvedBrowserConfig :=
  { chromeProfile := none
    chromePath := none
    url := CHATGPT_URL
    timeoutMs := 900000
    inputTimeoutMs := 30000
    cookieSync := true
    headless := false
    keepBrowser := false
    hideWindow := false
    desiredModel := none
    debug := false
    allowCookieErrors := false }

/-- resolveBrowserConfig, src/browser/config.ts: every field falls back to the
default when absent.  An explicitly null chromeProfile, chromePath or
desiredModel coincides with the null default, so a single option level
suffices. -/
def resolveBrowserConfig (config : Option BrowserAutomationConfig) : ResolvedBrowserConfig :=
  let c := config.getD {}
  { chromeProfile := match c.chromeProfile with | some v => some v | none => DEFAULT_BROWSER_CONFIG.chromeProfile
    chromePath := match c.chromePath with | some v => some v | none => DEFAULT_BROWSER_CONFIG.chromePath
    url := c.url.getD DEFAULT_BROWSER_CONFIG.url
    timeoutMs := c.timeoutMs.getD DEFAULT_BROWSER_CONFIG.timeoutMs
    inputTimeoutMs := c.inputTimeoutMs.getD DEFAULT_BROWSER_CONFIG.inputTimeoutMs
    cookieSync := c.cookieSync.getD DEFAULT_BROWSER_CONFIG.cookieSync
    headless := c.headless.getD DEFAULT_BROWSER_CONFIG.headless
    keepBrowser := c.keepBrowser.getD DEFAULT_BROWSER_CONFIG.keepBrowser
    hideWindow := c.hideWindow.getD DEFAULT_BROWSER_CONFIG.hideWindow
    desiredModel := match c.desiredModel with | some v => some v | none => DEFAULT_BROWSER_CONFIG.desiredModel
    debug := c.debug.getD DEFAULT_BROWSER_CONFIG.debug
    allowCookieErrors := c.allowCookieErrors.getD DEFAULT_BROWSER_CONFIG.allowCookieErrors }

inductive RunEvent where
  | mkdtempProfile
  | launchChrome
  | registerHooks
  | connect
  | hideWindow
  | enableDomains
  | clearCookies
  | cookieSync
  | stepNavigate
  | stepBlockCheck
  | stepComposerReady
  | stepModelSelect
  | stepUploadAttachment (i : Nat)
  | stepAttachmentWait
  | stepSubmit
  | stepResponseWait
  | stepCaptureAttempt (i : Nat)
  | closeClient
  | removeHooks
  | killChrome
  | removeProfileDir
deriving DecidableEq, Repr

structure AssistantAnswer where
  text : String
  html : Option String
deriving DecidableEq, Repr

structure StepOutcomes where
  launch : Except String Unit
  connect : Except String Unit
  enableDomains : Except String Unit
  clearCookies : Except String Unit
  cookieSyncResult : Except String Nat
  navigate : Except String Unit
  blockCheck : Except String Unit
  composerReady : Except String Unit
  domAvailable : Bool
  upload : Nat → Except String Unit
  attachmentWait : Except String Unit
  submit : Except String Unit
  responseWait : Except String AssistantAnswer
  capture : Nat → Except String (Option String)
  disconnectEmitted : Bool

structure BrowserAttachment where
  path : String
  displayPath : String
deriving DecidableEq, Repr

structure BrowserRunOptions where
  prompt : Option String
  attachments : Option (List BrowserAttachment) := none
  config : Option BrowserAutomationConfig := none

structure BrowserRunResult where
  answerText : String
  answerMarkdown : String
  answerHtml : Option String
  answerChars : Nat
deriving DecidableEq, Repr

structure RunError where
  message : String
  cause : Option String
deriving DecidableEq, Repr

def promptRequiredError : RunError :=
  { message := "Prompt text is required when using browser mode.", cause := none }

def windowClosedError (cause : String) : RunError :=
  { message := "Chrome window closed before Oracle finished. Please keep it open until completion."
    cause := some cause }

/-- isWebSocketClosureError, src/browser/index.ts lines 227 to 235. -/
def isWebSocketClosureError (message : String) : Bool :=
  let m := jsToLower message
  strIncludes m "websocket connection closed" || strIncludes m "websocket is closed" ||
    strIncludes m "websocket error" || strIncludes m "target closed"

/-- One awaited step: record its event and surface its outcome. -/
def stepRun {α : Type} (ev : RunEvent) (out : Except String α) :
    Except String α × List RunEvent :=
  (out, [ev])

/-- Sequencing in the try block: a rejected step short-circuits to the catch
block, keeping the events performed so far. -/
def andThen {α β : Type} (x : Except String α × List RunEvent)
    (f : α → Except String β × List RunEvent) : Except String β × List RunEvent :=
  match x with
  | (.error m, tr) => (.error m, tr)
  | (.ok a, tr) =>
    let y := f a
    (y.1, tr ++ y.2)

/-- The attachment upload loop: one uploadAttachmentFile per attachment in
submitted order. -/
def uploadAll (w : StepOutcomes) : Nat → Nat → Except String Unit × List RunEvent
  | _, 0 => (.ok (), [])
  | i, r + 1 =>
    andThen (stepRun (.stepUploadAttachment i) (w.upload i)) (fun _ => uploadAll w (i + 1) r)

def captureRetries : Nat := 2
def captureDelayMs : Nat := 350

/-- Modelled from the spec: withRetries lives in src/browser/utils.ts, which is
not among the sources.  Per the spec, transcript capture is retried a small
bounded number of times with short backoff and a total failure is not an
error; the call site in runBrowserMode passes retries 2 and delayMs 350, so at
most captureRetries + 1 = 3 attempts run.  An attempt succeeds when
captureAssistantMarkdown yields a markdown string; a null return is turned
into a copy-missing failure by the wrapper, and both it and a rejection move
on to the next attempt.  The backoff delay does not affect the value and is
recorded only as the captureDelayMs constant. -/
def captureLoop (w : StepOutcomes) : Nat → Nat → Option String × List RunEvent
  | _, 0 => (none, [])
  | i, r + 1 =>
    match w.capture i with
    | .ok (some md) => (some md, [.stepCaptureAttempt i])
    | .ok none =>
      let (res, tr) := captureLoop w (i + 1) r
      (res, .stepCaptureAttempt i :: tr)
    | .error _ =>
      let (res, tr) := captureLoop w (i + 1) r
      (res, .stepCaptureAttempt i :: tr)

/-- The try block of runBrowserMode, src/browser/index.ts lines 71 to 164:
connect, optional window hiding, domain enabling, cookie clearing, optional
cookie sync, then the page steps in order, ending with the markdown capture
retry loop and construction of the run result. -/
def runSteps (cfg : ResolvedBrowserConfig) (attachments : List BrowserAttachment)
    (w : StepOutcomes) : Except String BrowserRunResult × List RunEvent :=
  andThen (stepRun .connect w.connect) fun _ =>
  andThen (if !cfg.headless && cfg.hideWindow then ((.ok ()), [.hideWindow]) else ((.ok ()), [])) fun _ =>
  andThen (stepRun .enableDomains w.enableDomains) fun _ =>
  andThen (stepRun .clearCookies w.clearCookies) fun _ =>
  andThen (if cfg.cookieSync then stepRun .cookieSync (w.cookieSyncResult.map fun _ => ()) else ((.ok ()), [])) fun _ =>
  andThen (stepRun .stepNavigate w.navigate) fun _ =>
  andThen (stepRun .stepBlockCheck w.blockCheck) fun _ =>
  andThen (stepRun .stepComposerReady w.composerReady) fun _ =>
  andThen (if attachments.isEmpty then ((.ok ()), [])
    else if !w.domAvailable then ((.error "Chrome DOM domain unavailable while uploading attachments."), [])
    else andThen (uploadAll w 0 attachments.length) fun _ =>
      stepRun .stepAttachmentWait w.attachmentWait) fun _ =>
  andThen (stepRun .stepSubmit w.submit) fun _ =>
  andThen (stepRun .stepResponseWait w.responseWait) fun answer =>
  let (md, capTr) := captureLoop w 0 (captureRetries + 1)
  let answerText := answer.text
  let answerMarkdown := md.getD answerText
  let answerHtml := answer.html.getD ""
  ((.ok { answerText := answerText
          answerMarkdown := answerMarkdown
          answerHtml := if answerHtml.length > 0 then some answerHtml else none
          answerChars := answerText.length }), capTr)

/-- The finally block, src/browser/index.ts lines 184 to 209: close the client
unless the connection was lost, always remove the termination hooks, then
unless keepBrowser kill the process (skipped when the connection was lost) and
remove the temporary profile directory. -/
def teardownEvents (cfg : ResolvedBrowserConfig) (connectionLost : Bool) : List RunEvent :=
  (if !connectionLost then [RunEvent.closeClient] else []) ++ [RunEvent.removeHooks] ++
    (if !cfg.keepBrowser then
      (if !connectionLost then [RunEvent.killChrome] else []) ++ [RunEvent.removeProfileDir]
    else [])

/-- runBrowserMode, src/browser/index.ts lines 26 to 210.  The prompt guard
runs before any side effect; launchChrome runs outside the try block so a
launch failure propagates raw and without teardown; a failure inside the try
block is reclassified as the window-closed error exactly when the disconnect
event fired or the message matches isWebSocketClosureError, and that same flag
decides which teardown steps are skipped. -/
def runBrowserMode (opts : BrowserRunOptions) (w : StepOutcomes) :
    Except RunError BrowserRunResult × List RunEvent :=
  let promptText := match opts.prompt with | none => "" | some s => jsTrim s
  if promptText = "" then (.error promptRequiredError, [])
  else
    let cfg := resolveBrowserConfig opts.config
    let attachments := opts.attachments.getD []
    let pre : List RunEvent := [.mkdtempProfile, .launchChrome]
    match w.launch with
    | .error m => (.error { message := m, cause := none }, pre)
    | .ok _ =>
      let pre2 := pre ++ [RunEvent.registerHooks]
      match runSteps cfg attachments w with
      | (.ok r, bodyTr) =>
        (.ok r, pre2 ++ bodyTr ++ teardownEvents cfg w.disconnectEmitted)
      | (.error m, bodyTr) =>
        let socketClosed := w.disconnectEmitted || isWebSocketClosureError m
        let err := if socketClosed then windowClosedError m else { message := m, cause := none }
        (.error err, pre2 ++ bodyTr ++ teardownEvents cfg socketClosed)

/-! Concrete environments used by the closed theorems and witnesses. -/

/-- A run in which every protocol step succeeds. -/
def worldAllOk : StepOutcomes :=
  { launch := .ok ()
    connect := .ok ()
    enableDomains := .ok ()
    clearCookies := .ok ()
    cookieSyncResult := .ok 3
    navigate := .ok ()
    blockCheck := .ok ()
    composerReady := .ok ()
    domAvailable := true
    upload := fun _ => .ok ()
    attachmentWait := .ok ()
    submit := .ok ()
    responseWait := .ok { text := "Hi there", html := none }
    capture := fun _ => .ok (some "Hi there")
    disconnectEmitted := false }

/-- A run in which the response wait rejects with a websocket closure message. -/
def worldSocketClosed : StepOutcomes :=
  { worldAllOk with responseWait := .error "WebSocket connection closed" }

/-- A run in which every markdown capture attempt comes back empty. -/
def worldCaptureFails : StepOutcomes :=
  { worldAllOk with capture := fun _ => .ok none }

/-- Options with a desired model configured, as the spec says a model-selecting
run is configured. -/
def optsWithDesiredModel : BrowserRunOptions :=
  { prompt := some "Hello"
    attachments := some [{ path := "/tmp/a.txt", displayPath := "a.txt" }]
    config := some { desiredModel := some "GPT-5 Pro" } }

def optsPlain : BrowserRunOptions :=
  { prompt := some "Hello" }

def optsKeepBrowser : BrowserRunOptions :=
  { prompt := some "Hello", config := some { keepBrowser := some true } }

def optsBlankPrompt : BrowserRunOptions :=
  { prompt := some "   " }

/-- A FILETIME-range expiration: the concrete input refuting idempotence. -/
def filetimeCookie : PuppeteerCookie :=
  { name := "session", value := "v", domain := some ".chatgpt.com", path := some "/",
    expires := some 2000000000000, Secure := some true, HttpOnly := some false }

def cookieWitnessIn : PuppeteerCookie :=
  { name := "sid", value := "tok", domain := none, path := none,
    expires := some 1000, Secure := some false, HttpOnly := some true }

def cookieWitnessOut : CookieParam :=
  { name := "sid", value := "tok", domain := "chatgpt.com", path := "/",
    expires := some 1000, secure := false, httpOnly := true }

/-- A cookie read that succeeds with three cookies, the second setCookie call
rejecting. -/
def syncWorldOk : SyncWorld :=
  { readResult := .ok (List.replicate 3 cookieWitnessOut)
    setCookie := fun i => if i = 0 then .ok true else if i = 1 then .error "boom" else .ok true }

/-- A cookie read that fails outright, as when the credential-store module is
missing. -/
def syncWorldReadFail : SyncWorld :=
  { readResult := .error { message := "Could not locate the bindings file.", isCookieSyncError := false }
    setCookie := fun _ => .ok true }

def importsAlwaysBindingFail : Nat → ImportResult := fun _ =>
  .err "Could not locate the bindings file."

def importsOkAfterRebuild : Nat → ImportResult := fun i =>
  if i = 0 then .err "node_sqlite3.node was compiled against a different Node.js version" else .ok true

def rebuildEnvAllowed : RebuildEnv :=
  { allowRebuild := true, spawnExitCode := some 0 }

def rebuildEnvDenied : RebuildEnv :=
  { allowRebuild := false, spawnExitCode := some 0 }

/-- The run result produced when every markdown capture attempt fails: the
markdown falls back to the plain extracted text. -/
def capFallbackResult : BrowserRunResult :=
  { answerText := "Hi there", answerMarkdown := "Hi there", answerHtml := none, answerChars := 8 }

/-- Events that can be produced inside the try block of runBrowserMode (the
body between connect and markdown capture); setup and teardown events, and the
never-performed model-selection step, are excluded. -/
def isBodyEvent : RunEvent → Bool
  | .connect => true
  | .hideWindow => true
  | .enableDomains => true
  | .clearCookies => true
  | .cookieSync => true
  | .stepNavigate => true
  | .stepBlockCheck => true
  | .stepComposerReady => true
  | .stepUploadAttachment _ => true
  | .stepAttachmentWait => true
  | .stepSubmit => true
  | .stepResponseWait => true
  | .stepCaptureAttempt _ => true
  | _ => false

/-- A markdown-capture attempt that does not produce a markdown string: either
captureAssistantMarkdown returned null (converted to the copy-missing failure
by the wrapper) or the evaluation rejected. -/
def captureAttemptFailed (w : StepOutcomes) (i : Nat) : Bool :=
  match w.capture i with
  | .ok none => true
  | .error _ => true
  | .ok (some _) => false

/-! Theorems.  Helper lemmas come first; the theorems, counterexamples and
witnesses settling the individual spec claims are marked with the claim id. -/

/-- jsRound agrees with Mathlib round on the rationals: both are the floor of
x + 1/2, which is also the JavaScript Math.round convention. -/
theorem jsRound_eq_round (q : ℚ) : jsRound q = round q := by
  have hd : ((q.den : ℚ)) ≠ 0 := by
    exact_mod_cast q.den_ne_zero
  have hn : q * (q.den : ℚ) = ((q.num : ℤ) : ℚ) := Rat.mul_den_eq_num q
  have hq : q + 1 / 2 = ((2 * q.num + (q.den : ℤ) : ℤ) : ℚ) / ((2 * q.den : ℕ) : ℚ) := by
    rw [eq_div_iff (by positivity)]
    push_cast
    linarith [hn]
  rw [round_eq, hq, Rat.floor_intCast_div_natCast, jsRound]
  push_cast
  rfl

theorem jsRound_intCast (k : ℤ) : jsRound ((k : ℤ) : ℚ) = k := by
  simp [jsRound]
  omega

/-- Every defined value produced by normalizeExpiration is an integer. -/
theorem normalizeExpiration_int {e : Option ℚ} {v : ℚ}
    (h : normalizeExpiration e = some v) : ∃ k : ℤ, v = (k : ℚ) := by
  cases e with
  | none => simp [normalizeExpiration] at h
  | some x =>
    simp only [normalizeExpiration] at h
    split_ifs at h <;> simp_all <;> exact ⟨_, h.symm⟩

/-- Integer values in the plain-seconds range are fixed points of
normalizeExpiration. -/
theorem normalizeExpiration_fixed {v : ℚ} (hk : ∃ k : ℤ, v = (k : ℚ))
    (h0 : 0 < v) (h9 : v ≤ 10 ^ 9) : normalizeExpiration (some v) = some v := by
  obtain ⟨k, rfl⟩ := hk
  simp only [normalizeExpiration]
  rw [if_neg (by exact_mod_cast h0.ne'), if_neg (by linarith),
    if_neg (by push_neg; norm_num at h9 ⊢; linarith),
    if_neg (by push_neg; norm_num at h9 ⊢; linarith), jsRound_intCast]

theorem normalizeExpiration_filetime_val :
    normalizeExpiration (some (2000000000000 : ℚ)) = some (-11642473600 : ℚ) := by
  have h : (2000000000000 : ℚ) / 1000000 - 11644473600 = ((-11642473600 : ℤ) : ℚ) := by
    norm_num
  simp only [normalizeExpiration]
  rw [if_neg (by norm_num), if_neg (by norm_num), if_pos (by norm_num), h, jsRound_intCast]
  norm_num

theorem normalizeExpiration_negative_val :
    normalizeExpiration (some (-11642473600 : ℚ)) = none := by
  simp only [normalizeExpiration]
  rw [if_neg (by norm_num), if_pos (by norm_num)]

/-- C2 (counterexample): normalizeExpiration is not idempotent on its own
output.  The FILETIME-range input 2000000000000 normalizes to the integer
-11642473600; re-applying normalizeExpiration to that produced value yields
undefined instead of the value itself, and re-normalizing the corresponding
normalized cookie changes its expires field. -/
theorem normalizeExpiration_not_idempotent_cex :
    normalizeExpiration (normalizeExpiration (some (2000000000000 : ℚ))) ≠
      normalizeExpiration (some (2000000000000 : ℚ)) ∧
    Option.map CookieParam.expires (normalizeCookie filetimeCookie "chatgpt.com") =
      some (some (-11642473600 : ℚ)) ∧
    Option.map CookieParam.expires
      (Option.bind (normalizeCookie filetimeCookie "chatgpt.com")
        (fun n => normalizeCookie (cookieParamToPuppeteer n) "chatgpt.com")) = some none := by
  refine ⟨?_, ?_, ?_⟩
  · rw [normalizeExpiration_filetime_val, normalizeExpiration_negative_val]
    simp
  · simp [normalizeCookie, filetimeCookie, normalizeExpiration_filetime_val]
  · simp [normalizeCookie, filetimeCookie, cookieParamToPuppeteer,
      normalizeExpiration_filetime_val, normalizeExpiration_negative_val]

/-- C2 (amended): re-normalizing an already-normalized cookie yields the same
name, value, domain, path, secure and httpOnly values, and the same expires
value whenever the normalized expiration is absent or lies in the interval
from 0 exclusive to 10 to the 9 inclusive (the plain-seconds range); produced
expirations outside that range, which FILETIME-range inputs can create, are
not fixed points, as the counterexample shows. -/
theorem normalizeCookie_renormalize_amended :
    ∀ (c : PuppeteerCookie) (host : String) (n : CookieParam),
      normalizeCookie c host = some n →
      ∃ m, normalizeCookie (cookieParamToPuppeteer n) host = some m ∧
        m.name = n.name ∧ m.value = n.value ∧ m.domain = n.domain ∧ m.path = n.path ∧
        m.secure = n.secure ∧ m.httpOnly = n.httpOnly ∧
        ((∀ v : ℚ, n.expires = some v → 0 < v ∧ v ≤ 10 ^ 9) → m.expires = n.expires) := by
  intro c host n h
  simp only [normalizeCookie] at h
  by_cases hname : c.name = ""
  · rw [if_pos hname] at h
    exact absurd h (by simp)
  · rw [if_neg hname] at h
    replace h := Option.some.inj h
    subst h
    simp only [cookieParamToPuppeteer, normalizeCookie]
    rw [if_neg hname]
    refine ⟨_, rfl, rfl, rfl, ?_, rfl, rfl, rfl, ?_⟩
    · simp
    · intro hcond
      cases hrec : normalizeExpiration c.expires with
      | none => simp [hrec, normalizeExpiration]
      | some v =>
        have hint := normalizeExpiration_int hrec
        have hb := hcond v (by simp [hrec])
        simp only [hrec]
        exact normalizeExpiration_fixed hint hb.1 hb.2

/-- C2 (witness): the amended statement applied to a concrete normalized
cookie with a plain-seconds expiration. -/
theorem normalizeCookie_renormalize_amended_witness :
    ∃ m, normalizeCookie (cookieParamToPuppeteer cookieWitnessOut) "chatgpt.com" = some m ∧
      m.name = cookieWitnessOut.name ∧ m.value = cookieWitnessOut.value ∧
      m.domain = cookieWitnessOut.domain ∧ m.path = cookieWitnessOut.path ∧
      m.secure = cookieWitnessOut.secure ∧ m.httpOnly = cookieWitnessOut.httpOnly ∧
      ((∀ v : ℚ, cookieWitnessOut.expires = some v → 0 < v ∧ v ≤ 10 ^ 9) →
        m.expires = cookieWitnessOut.expires) :=
  normalizeCookie_renormalize_amended cookieWitnessIn "chatgpt.com" cookieWitnessOut (by
    have h1000 : normalizeExpiration (some (1000 : ℚ)) = some (1000 : ℚ) :=
      normalizeExpiration_fixed ⟨1000, by norm_num⟩ (by norm_num) (by norm_num)
    simp [normalizeCookie, cookieWitnessIn, cookieWitnessOut, h1000])


theorem andThen_events {α β : Type} (p : RunEvent → Bool)
    (x : Except String α × List RunEvent) (f : α → Except String β × List RunEvent)
    (hx : ∀ e ∈ x.2, p e = true) (hf : ∀ a, ∀ e ∈ (f a).2, p e = true) :
    ∀ e ∈ (andThen x f).2, p e = true := by
  rcases x with ⟨res, tr⟩
  cases res with
  | error m => simpa [andThen] using hx
  | ok a =>
    intro e he
    simp only [andThen, List.mem_append] at he
    rcases he with he | he
    · exact hx e he
    · exact hf a e he

theorem uploadAll_events (w : StepOutcomes) :
    ∀ n i, ∀ e ∈ (uploadAll w i n).2, isBodyEvent e = true := by
  intro n
  induction n with
  | zero => intro i; simp [uploadAll]
  | succ n ih =>
    intro i
    refine andThen_events _ _ _ ?_ (fun _ => ih (i + 1))
    simp [stepRun, isBodyEvent]

theorem captureLoop_events (w : StepOutcomes) :
    ∀ n i, ∀ e ∈ (captureLoop w i n).2, isBodyEvent e = true := by
  intro n
  induction n with
  | zero => intro i; simp [captureLoop]
  | succ n ih =>
    intro i e he
    simp only [captureLoop] at he
    cases hc : w.capture i with
    | ok v =>
      cases v with
      | some md =>
        rw [hc] at he
        simp at he
        simp [he, isBodyEvent]
      | none =>
        rw [hc] at he
        simp at he
        rcases he with he | he
        · simp [he, isBodyEvent]
        · exact ih (i + 1) e he
    | error m =>
      rw [hc] at he
      simp at he
      rcases he with he | he
      · simp [he, isBodyEvent]
      · exact ih (i + 1) e he

theorem runSteps_events (cfg : ResolvedBrowserConfig) (atts : List BrowserAttachment)
    (w : StepOutcomes) : ∀ e ∈ (runSteps cfg atts w).2, isBodyEvent e = true := by
  unfold runSteps
  refine andThen_events _ _ _ (by simp [stepRun, isBodyEvent]) (fun _ => ?_)
  refine andThen_events _ _ _ ?_ (fun _ => ?_)
  · split <;> simp [isBodyEvent]
  refine andThen_events _ _ _ (by simp [stepRun, isBodyEvent]) (fun _ => ?_)
  refine andThen_events _ _ _ (by simp [stepRun, isBodyEvent]) (fun _ => ?_)
  refine andThen_events _ _ _ ?_ (fun _ => ?_)
  · split <;> simp [stepRun, isBodyEvent]
  refine andThen_events _ _ _ (by simp [stepRun, isBodyEvent]) (fun _ => ?_)
  refine andThen_events _ _ _ (by simp [stepRun, isBodyEvent]) (fun _ => ?_)
  refine andThen_events _ _ _ (by simp [stepRun, isBodyEvent]) (fun _ => ?_)
  refine andThen_events _ _ _ ?_ (fun _ => ?_)
  · split
    · simp
    · split
      · simp
      · refine andThen_events _ _ _ (uploadAll_events w atts.length 0) (fun _ => ?_)
        simp [stepRun, isBodyEvent]
  refine andThen_events _ _ _ (by simp [stepRun, isBodyEvent]) (fun _ => ?_)
  refine andThen_events _ _ _ (by simp [stepRun, isBodyEvent]) (fun answer => ?_)
  intro e he
  rcases hc : captureLoop w 0 (captureRetries + 1) with ⟨md, capTr⟩
  rw [hc] at he
  simp at he
  have hcap := captureLoop_events w (captureRetries + 1) 0
  rw [hc] at hcap
  exact hcap e he

theorem teardownEvents_mem (cfg : ResolvedBrowserConfig) (flag : Bool) (e : RunEvent)
    (hmem : e ∈ teardownEvents cfg flag) :
    e = RunEvent.closeClient ∨ e = RunEvent.removeHooks ∨ e = RunEvent.killChrome ∨
    e = RunEvent.removeProfileDir := by
  unfold teardownEvents at hmem
  cases flag <;> cases hkeep : cfg.keepBrowser <;> simp [hkeep] at hmem <;> tauto

theorem runBrowserMode_trace_events (opts : BrowserRunOptions) (w : StepOutcomes) :
    ∀ e ∈ (runBrowserMode opts w).2,
      e = RunEvent.mkdtempProfile ∨ e = RunEvent.launchChrome ∨ e = RunEvent.registerHooks ∨
      isBodyEvent e = true ∨
      e = RunEvent.closeClient ∨ e = RunEvent.removeHooks ∨ e = RunEvent.killChrome ∨
      e = RunEvent.removeProfileDir := by
  intro e he
  unfold runBrowserMode at he
  by_cases hp : (match opts.prompt with | none => "" | some s => jsTrim s) = ""
  · rw [if_pos hp] at he
    simp at he
  · rw [if_neg hp] at he
    simp only [] at he
    cases hl : w.launch with
    | error m =>
      rw [hl] at he
      simp at he
      rcases he with he | he <;> simp [he]
    | ok u =>
      rw [hl] at he
      rcases hr : runSteps (resolveBrowserConfig opts.config) (opts.attachments.getD []) w
        with ⟨res, bodyTr⟩
      rw [hr] at he
      have hbody := runSteps_events (resolveBrowserConfig opts.config)
        (opts.attachments.getD []) w
      rw [hr] at hbody
      cases res with
      | ok r =>
        simp at he
        rcases he with he | he | he | he | he
        · simp [he]
        · simp [he]
        · simp [he]
        · exact Or.inr (Or.inr (Or.inr (Or.inl (hbody e he))))
        · have := teardownEvents_mem _ _ _ he
          tauto
      | error m =>
        simp at he
        rcases he with he | he | he | he | he
        · simp [he]
        · simp [he]
        · simp [he]
        · exact Or.inr (Or.inr (Or.inr (Or.inl (hbody e he))))
        · have := teardownEvents_mem _ _ _ he
          tauto

/-- C8: model-option matching built for the target 5.1 Instant is case-,
whitespace- and punctuation-insensitive: it accepts the visible labels ChatGPT
5.1 Instant and 5.1Instant through normalized-token containment, and the
data-testid attribute chatgpt-5.1-instant through test-id token containment. -/
theorem modelMatching_insensitive :
    optionMatchesLabel (buildModelMatchersLiteral "5.1 Instant") "ChatGPT 5.1 Instant" = true ∧
    optionMatchesLabel (buildModelMatchersLiteral "5.1 Instant") "5.1Instant" = true ∧
    optionMatchesTestId (buildModelMatchersLiteral "5.1 Instant") "chatgpt-5.1-instant" = true := by
  decide

/-- C1 (code evaluation at the failing input): with a desired model configured
and every step succeeding, the trace of runBrowserMode is the strictly
sequential list navigate, block-check, composer-ready, upload, submit,
response-wait, capture, with no model-selection step anywhere; indeed no run
of runBrowserMode ever performs the model-selection step, since
ensureModelSelection is never invoked. -/
theorem runBrowserMode_modelSelect_never_executed :
    (runBrowserMode optsWithDesiredModel worldAllOk).2 =
      [RunEvent.mkdtempProfile, RunEvent.launchChrome, RunEvent.registerHooks, RunEvent.connect,
        RunEvent.enableDomains, RunEvent.clearCookies, RunEvent.cookieSync, RunEvent.stepNavigate,
        RunEvent.stepBlockCheck, RunEvent.stepComposerReady, RunEvent.stepUploadAttachment 0,
        RunEvent.stepAttachmentWait, RunEvent.stepSubmit, RunEvent.stepResponseWait,
        RunEvent.stepCaptureAttempt 0, RunEvent.closeClient, RunEvent.removeHooks,
        RunEvent.killChrome, RunEvent.removeProfileDir] ∧
    (resolveBrowserConfig optsWithDesiredModel.config).desiredModel = some "GPT-5 Pro" ∧
    (∀ (opts : BrowserRunOptions) (w : StepOutcomes),
      RunEvent.stepModelSelect ∉ (runBrowserMode opts w).2) := by
  refine ⟨by decide, by decide, ?_⟩
  intro opts w hmem
  have := runBrowserMode_trace_events opts w RunEvent.stepModelSelect hmem
  simp [isBodyEvent] at this

/-- C10: a missing, empty or whitespace-only prompt makes runBrowserMode fail
immediately with the prompt-required error, with an empty event trace: no
temporary profile directory is created and no browser process is launched. -/
theorem runBrowserMode_empty_prompt_guard :
    ∀ (opts : BrowserRunOptions) (w : StepOutcomes),
      (opts.prompt = none ∨ ∃ s, opts.prompt = some s ∧ jsTrim s = "") →
      runBrowserMode opts w = (.error promptRequiredError, []) ∧
      promptRequiredError.message = "Prompt text is required when using browser mode." := by
  intro opts w h
  refine ⟨?_, rfl⟩
  unfold runBrowserMode
  rcases h with h | ⟨s, hs, htrim⟩
  · rw [h]
    rfl
  · rw [hs]
    simp only [htrim]
    rfl

/-- C10 (witness): the guard fires on a whitespace-only prompt. -/
theorem runBrowserMode_empty_prompt_guard_witness :
    runBrowserMode optsBlankPrompt worldAllOk = (.error promptRequiredError, []) ∧
    promptRequiredError.message = "Prompt text is required when using browser mode." :=
  runBrowserMode_empty_prompt_guard optsBlankPrompt worldAllOk
    (Or.inr ⟨"   ", rfl, by decide⟩)

/-- C4: whenever the resolved configuration has keepBrowser set, no run of
runBrowserMode ever performs the process-kill or the profile-directory
removal, whatever the outcome of every step, error or disconnect. -/
theorem runBrowserMode_keepBrowser_frame :
    ∀ (opts : BrowserRunOptions) (w : StepOutcomes),
      (resolveBrowserConfig opts.config).keepBrowser = true →
      RunEvent.killChrome ∉ (runBrowserMode opts w).2 ∧
      RunEvent.removeProfileDir ∉ (runBrowserMode opts w).2 := by
  intro opts w hkeep
  have htear : ∀ flag e, e ∈ teardownEvents (resolveBrowserConfig opts.config) flag →
      e = RunEvent.closeClient ∨ e = RunEvent.removeHooks := by
    intro flag e hmem
    unfold teardownEvents at hmem
    cases flag <;> simp [hkeep] at hmem <;> tauto
  constructor <;> intro hmem
  · unfold runBrowserMode at hmem
    by_cases hp : (match opts.prompt with | none => "" | some s => jsTrim s) = ""
    · rw [if_pos hp] at hmem
      simp at hmem
    · rw [if_neg hp] at hmem
      simp only [] at hmem
      cases hl : w.launch with
      | error m =>
        rw [hl] at hmem
        simp at hmem
      | ok u =>
        rw [hl] at hmem
        rcases hr : runSteps (resolveBrowserConfig opts.config) (opts.attachments.getD []) w
          with ⟨res, bodyTr⟩
        rw [hr] at hmem
        have hbody := runSteps_events (resolveBrowserConfig opts.config)
          (opts.attachments.getD []) w
        rw [hr] at hbody
        cases res with
        | ok r =>
          simp at hmem
          rcases hmem with hmem | hmem
          · have := hbody _ hmem
            simp [isBodyEvent] at this
          · rcases htear _ _ hmem with h | h <;> simp at h
        | error m =>
          simp at hmem
          rcases hmem with hmem | hmem
          · have := hbody _ hmem
            simp [isBodyEvent] at this
          · rcases htear _ _ hmem with h | h <;> simp at h
  · unfold runBrowserMode at hmem
    by_cases hp : (match opts.prompt with | none => "" | some s => jsTrim s) = ""
    · rw [if_pos hp] at hmem
      simp at hmem
    · rw [if_neg hp] at hmem
      simp only [] at hmem
      cases hl : w.launch with
      | error m =>
        rw [hl] at hmem
        simp at hmem
      | ok u =>
        rw [hl] at hmem
        rcases hr : runSteps (resolveBrowserConfig opts.config) (opts.attachments.getD []) w
          with ⟨res, bodyTr⟩
        rw [hr] at hmem
        have hbody := runSteps_events (resolveBrowserConfig opts.config)
          (opts.attachments.getD []) w
        rw [hr] at hbody
        cases res with
        | ok r =>
          simp at hmem
          rcases hmem with hmem | hmem
          · have := hbody _ hmem
            simp [isBodyEvent] at this
          · rcases htear _ _ hmem with h | h <;> simp at h
        | error m =>
          simp at hmem
          rcases hmem with hmem | hmem
          · have := hbody _ hmem
            simp [isBodyEvent] at this
          · rcases htear _ _ hmem with h | h <;> simp at h

/-- C4 (witness): the frame condition at a concrete keep-browser run. -/
theorem runBrowserMode_keepBrowser_frame_witness :
    RunEvent.killChrome ∉ (runBrowserMode optsKeepBrowser worldAllOk).2 ∧
    RunEvent.removeProfileDir ∉ (runBrowserMode optsKeepBrowser worldAllOk).2 :=
  runBrowserMode_keepBrowser_frame optsKeepBrowser worldAllOk (by decide)

theorem andThen_ok1 {α β : Type} {x : Except String α × List RunEvent}
    {f : α → Except String β × List RunEvent} {b : β}
    (h : (andThen x f).1 = .ok b) : ∃ a, x.1 = .ok a ∧ (f a).1 = .ok b := by
  rcases x with ⟨res, tr0⟩
  cases res with
  | error m => simp [andThen] at h
  | ok a =>
    simp only [andThen] at h
    exact ⟨a, rfl, h⟩

theorem captureLoop_fail_step {w : StepOutcomes} {i : Nat}
    (h : captureAttemptFailed w i = true) (n : Nat) :
    captureLoop w i (n + 1) =
      ((captureLoop w (i + 1) n).1,
        RunEvent.stepCaptureAttempt i :: (captureLoop w (i + 1) n).2) := by
  unfold captureAttemptFailed at h
  cases hc : w.capture i with
  | ok v =>
    cases v with
    | some md => rw [hc] at h; simp at h
    | none => simp [captureLoop, hc]
  | error m => simp [captureLoop, hc]

/-- C3: when the try block of runBrowserMode fails and either the disconnect
event has fired or the failure message matches a known websocket-closure
pattern, the thrown error is the distinct window-closed error carrying the
underlying message as its cause, and the teardown performs neither the client
close nor the process kill. -/
theorem runBrowserMode_disconnect_reclassified :
    ∀ (opts : BrowserRunOptions) (w : StepOutcomes) (s m : String) (bodyTr : List RunEvent),
      opts.prompt = some s → jsTrim s ≠ "" → w.launch = .ok () →
      runSteps (resolveBrowserConfig opts.config) (opts.attachments.getD []) w =
        (.error m, bodyTr) →
      (w.disconnectEmitted = true ∨ isWebSocketClosureError m = true) →
      (runBrowserMode opts w).1 = .error (windowClosedError m) ∧
      (windowClosedError m).message =
        "Chrome window closed before Oracle finished. Please keep it open until completion." ∧
      (windowClosedError m).cause = some m ∧
      RunEvent.closeClient ∉ (runBrowserMode opts w).2 ∧
      RunEvent.killChrome ∉ (runBrowserMode opts w).2 := by
  intro opts w s m bodyTr hs htrim hl hr hsock
  have hflag : (w.disconnectEmitted || isWebSocketClosureError m) = true := by
    rcases hsock with h | h <;> simp [h]
  have hcond : ¬(match opts.prompt with | none => "" | some s' => jsTrim s') = "" := by
    rw [hs]
    simpa using htrim
  have heq : runBrowserMode opts w =
      (.error (windowClosedError m),
        [RunEvent.mkdtempProfile, RunEvent.launchChrome, RunEvent.registerHooks] ++ bodyTr ++
          teardownEvents (resolveBrowserConfig opts.config) true) := by
    unfold runBrowserMode
    rw [if_neg hcond]
    simp only []
    rw [hl, hr]
    simp only [hflag]
    rfl
  have hbody := runSteps_events (resolveBrowserConfig opts.config) (opts.attachments.getD []) w
  rw [hr] at hbody
  rw [heq]
  refine ⟨rfl, rfl, rfl, ?_, ?_⟩
  · intro hmem
    simp at hmem
    rcases hmem with hmem | hmem
    · have := hbody _ hmem
      simp [isBodyEvent] at this
    · unfold teardownEvents at hmem
      cases hkeep : (resolveBrowserConfig opts.config).keepBrowser <;> simp [hkeep] at hmem
  · intro hmem
    simp at hmem
    rcases hmem with hmem | hmem
    · have := hbody _ hmem
      simp [isBodyEvent] at this
    · unfold teardownEvents at hmem
      cases hkeep : (resolveBrowserConfig opts.config).keepBrowser <;> simp [hkeep] at hmem

/-- C3 (witness): a concrete run whose response wait rejects with a websocket
closure message. -/
theorem runBrowserMode_disconnect_reclassified_witness :
    (runBrowserMode optsPlain worldSocketClosed).1 =
      .error (windowClosedError "WebSocket connection closed") ∧
    (windowClosedError "WebSocket connection closed").message =
      "Chrome window closed before Oracle finished. Please keep it open until completion." ∧
    (windowClosedError "WebSocket connection closed").cause =
      some "WebSocket connection closed" ∧
    RunEvent.closeClient ∉ (runBrowserMode optsPlain worldSocketClosed).2 ∧
    RunEvent.killChrome ∉ (runBrowserMode optsPlain worldSocketClosed).2 :=
  runBrowserMode_disconnect_reclassified optsPlain worldSocketClosed "Hello"
    "WebSocket connection closed"
    [RunEvent.connect, RunEvent.enableDomains, RunEvent.clearCookies, RunEvent.cookieSync,
      RunEvent.stepNavigate, RunEvent.stepBlockCheck, RunEvent.stepComposerReady,
      RunEvent.stepSubmit, RunEvent.stepResponseWait]
    rfl (by decide) rfl rfl (Or.inr (by decide))

/-- C6: once the response wait has succeeded, failure of every markdown
capture attempt within the bounded retry budget of captureRetries + 1 = 3
attempts never fails the run: it still returns the run result, whose
answerMarkdown equals the plain extracted answerText. -/
theorem runBrowserMode_capture_fallback :
    ∀ (opts : BrowserRunOptions) (w : StepOutcomes) (s : String) (r : BrowserRunResult)
      (bodyTr : List RunEvent),
      opts.prompt = some s → jsTrim s ≠ "" → w.launch = .ok () →
      runSteps (resolveBrowserConfig opts.config) (opts.attachments.getD []) w =
        (.ok r, bodyTr) →
      (∀ i, i < captureRetries + 1 → captureAttemptFailed w i = true) →
      (runBrowserMode opts w).1 = .ok r ∧
      r.answerMarkdown = r.answerText ∧
      captureLoop w 0 (captureRetries + 1) =
        (none, [RunEvent.stepCaptureAttempt 0, RunEvent.stepCaptureAttempt 1,
          RunEvent.stepCaptureAttempt 2]) := by
  intro opts w s r bodyTr hs htrim hl hr hfail
  have hcap : captureLoop w 0 (captureRetries + 1) =
      (none, [RunEvent.stepCaptureAttempt 0, RunEvent.stepCaptureAttempt 1,
        RunEvent.stepCaptureAttempt 2]) := by
    show captureLoop w 0 3 = _
    rw [show (3 : Nat) = 2 + 1 by rfl, captureLoop_fail_step (hfail 0 (by decide)) 2]
    rw [show (2 : Nat) = 1 + 1 by rfl, captureLoop_fail_step (hfail 1 (by decide)) 1]
    rw [show (1 : Nat) = 0 + 1 by rfl, captureLoop_fail_step (hfail 2 (by decide)) 0]
    rfl
  have hcond : ¬(match opts.prompt with | none => "" | some s' => jsTrim s') = "" := by
    rw [hs]
    simpa using htrim
  have hrun : (runBrowserMode opts w).1 = .ok r := by
    unfold runBrowserMode
    rw [if_neg hcond]
    simp only []
    rw [hl, hr]
  refine ⟨hrun, ?_, hcap⟩
  have h1 : (runSteps (resolveBrowserConfig opts.config) (opts.attachments.getD []) w).1 =
      .ok r := by rw [hr]
  unfold runSteps at h1
  obtain ⟨a1, hx1, h1⟩ := andThen_ok1 h1
  obtain ⟨a2, hx2, h1⟩ := andThen_ok1 h1
  obtain ⟨a3, hx3, h1⟩ := andThen_ok1 h1
  obtain ⟨a4, hx4, h1⟩ := andThen_ok1 h1
  obtain ⟨a5, hx5, h1⟩ := andThen_ok1 h1
  obtain ⟨a6, hx6, h1⟩ := andThen_ok1 h1
  obtain ⟨a7, hx7, h1⟩ := andThen_ok1 h1
  obtain ⟨a8, hx8, h1⟩ := andThen_ok1 h1
  obtain ⟨a9, hx9, h1⟩ := andThen_ok1 h1
  obtain ⟨a10, hx10, h1⟩ := andThen_ok1 h1
  obtain ⟨answer, hx11, h1⟩ := andThen_ok1 h1
  rw [hcap] at h1
  simp only [] at h1
  replace h1 := Except.ok.inj h1
  rw [← h1]
  rfl

/-- C6 (witness): a concrete run in which every capture attempt returns null;
the run result still comes back with the plain text as markdown. -/
theorem runBrowserMode_capture_fallback_witness :
    (runBrowserMode optsPlain worldCaptureFails).1 = .ok capFallbackResult ∧
    capFallbackResult.answerMarkdown = capFallbackResult.answerText ∧
    captureLoop worldCaptureFails 0 (captureRetries + 1) =
      (none, [RunEvent.stepCaptureAttempt 0, RunEvent.stepCaptureAttempt 1,
        RunEvent.stepCaptureAttempt 2]) :=
  runBrowserMode_capture_fallback optsPlain worldCaptureFails "Hello" capFallbackResult
    [RunEvent.connect, RunEvent.enableDomains, RunEvent.clearCookies, RunEvent.cookieSync,
      RunEvent.stepNavigate, RunEvent.stepBlockCheck, RunEvent.stepComposerReady,
      RunEvent.stepSubmit, RunEvent.stepResponseWait, RunEvent.stepCaptureAttempt 0,
      RunEvent.stepCaptureAttempt 1, RunEvent.stepCaptureAttempt 2]
    rfl (by decide) rfl rfl (by decide)


theorem applyCookiesFrom_count (w : SyncWorld) :
    ∀ (r i : Nat), (applyCookiesFrom w i r).1 =
      (List.range r).countP
        (fun j => match w.setCookie (i + j) with | .ok true => true | _ => false) := by
  intro r
  induction r with
  | zero => intro i; simp [applyCookiesFrom]
  | succ r ih =>
    intro i
    rw [List.range_succ_eq_map, List.countP_cons, List.countP_map]
    have hcomp :
        ((fun j => match w.setCookie (i + j) with | .ok true => true | _ => false) ∘ Nat.succ) =
          (fun j => match w.setCookie (i + 1 + j) with | .ok true => true | _ => false) := by
      funext j
      simp only [Function.comp]
      congr 2
      omega
    rw [hcomp, ← ih (i + 1)]
    simp only [applyCookiesFrom, Nat.add_zero]
    rcases hrec : applyCookiesFrom w (i + 1) r with ⟨n, ev⟩
    split <;> simp_all

theorem applyCookiesFrom_logs (w : SyncWorld) :
    ∀ (r i j : Nat) (msg : String), j < r → w.setCookie (i + j) = .error msg →
      CookieSyncEvent.logSetCookieFailure (i + j) msg ∈ (applyCookiesFrom w i r).2 := by
  intro r
  induction r with
  | zero => intro i j msg hj _; exact absurd hj (by omega)
  | succ r ih =>
    intro i j msg hj herr
    cases j with
    | zero =>
      rw [Nat.add_zero] at herr ⊢
      simp only [applyCookiesFrom]
      rcases hrec : applyCookiesFrom w (i + 1) r with ⟨n, ev⟩
      simp [herr, hrec]
    | succ j =>
      have hj2 : j < r := by omega
      have herr2 : w.setCookie (i + 1 + j) = .error msg := by
        rw [show i + 1 + j = i + (j + 1) by omega]
        exact herr
      have hmem := ih (i + 1) j msg hj2 herr2
      have harg : i + (j + 1) = i + 1 + j := by omega
      rw [harg]
      simp only [applyCookiesFrom]
      rcases hrec : applyCookiesFrom w (i + 1) r with ⟨n, ev⟩
      rw [hrec] at hmem
      split <;> simp_all

/-- C5: syncCookies applies cookies one at a time and returns the number of
successful applications; a per-cookie setCookie rejection is logged and
skipped without aborting the sync; a failing read raises the distinguishable
ChromeCookieSyncError when allowErrors is false, and with allowErrors true it
logs a warning and returns 0 so the run proceeds with zero cookies. -/
theorem syncCookies_policy :
    ∀ (w : SyncWorld) (allow : Bool),
      (∀ cookies, w.readResult = .ok cookies →
        (syncCookies w allow).1 = .ok (countApplied w cookies.length) ∧
        (∀ i msg, i < cookies.length → w.setCookie i = .error msg →
          CookieSyncEvent.logSetCookieFailure i msg ∈ (syncCookies w allow).2)) ∧
      (∀ e, w.readResult = .error e →
        (allow = false →
          ∃ e2, (syncCookies w allow).1 = .error e2 ∧
            e2.isCookieSyncError = true ∧ e2.message = e.message) ∧
        (allow = true → (syncCookies w allow).1 = .ok 0 ∧
          CookieSyncEvent.logWarnContinuing e.message ∈ (syncCookies w allow).2)) := by
  intro w allow
  constructor
  · intro cookies hread
    unfold syncCookies
    rw [hread]
    simp only []
    by_cases hlen : cookies.length = 0
    · rw [if_pos hlen]
      refine ⟨?_, ?_⟩
      · simp [hlen, countApplied]
      · intro i msg hi _
        rw [hlen] at hi
        exact absurd hi (by omega)
    · rw [if_neg hlen]
      rcases hrec : applyCookiesFrom w 0 cookies.length with ⟨n, ev⟩
      refine ⟨?_, ?_⟩
      · have := applyCookiesFrom_count w cookies.length 0
        rw [hrec] at this
        simp only [Nat.zero_add] at this
        simp [this, countApplied]
      · intro i msg hi herr
        have := applyCookiesFrom_logs w cookies.length 0 i msg hi (by simpa using herr)
        rw [hrec] at this
        simpa using this
  · intro e hread
    unfold syncCookies
    rw [hread]
    simp only []
    constructor
    · intro hallow
      rw [hallow]
      refine ⟨if e.isCookieSyncError then e else { message := e.message, isCookieSyncError := true }, ?_, ?_, ?_⟩
      · simp
      · cases he : e.isCookieSyncError <;> simp [he]
      · cases he : e.isCookieSyncError <;> simp [he]
    · intro hallow
      rw [hallow]
      simp

/-- C5 (witness): the policy applied to a concrete three-cookie sync with one
rejected setCookie, and to a concrete failing read under both settings. -/
theorem syncCookies_policy_witness :
    (syncCookies syncWorldOk false).1 =
      .ok (countApplied syncWorldOk (List.replicate 3 cookieWitnessOut).length) ∧
    CookieSyncEvent.logSetCookieFailure 1 "boom" ∈ (syncCookies syncWorldOk false).2 ∧
    (∃ e2, (syncCookies syncWorldReadFail false).1 = .error e2 ∧
      e2.isCookieSyncError = true ∧ e2.message = "Could not locate the bindings file.") ∧
    ((syncCookies syncWorldReadFail true).1 = .ok 0 ∧
      CookieSyncEvent.logWarnContinuing "Could not locate the bindings file." ∈
        (syncCookies syncWorldReadFail true).2) := by
  refine ⟨?_, ?_, ?_, ?_⟩
  · exact ((syncCookies_policy syncWorldOk false).1 _ rfl).1
  · exact ((syncCookies_policy syncWorldOk false).1 _ rfl).2 1 "boom" (by decide) rfl
  · exact ((syncCookies_policy syncWorldReadFail false).2 _ rfl).1 rfl
  · exact ((syncCookies_policy syncWorldReadFail true).2 _ rfl).2 rfl


theorem loadModuleFuel_attempted (imports : Nat → ImportResult) (env : RebuildEnv) :
    ∀ fuel idx, (loadModuleFuel imports env fuel true idx).2.1 = true ∧
      (loadModuleFuel imports env fuel true idx).2.2 = 0 := by
  intro fuel
  induction fuel with
  | zero => intro idx; simp [loadModuleFuel]
  | succ n ih =>
    intro idx
    simp only [loadModuleFuel]
    cases imports idx with
    | ok exposes => cases exposes <;> simp
    | err m =>
      by_cases hb : isSqliteBindingError m = true
      · simp [hb, attemptSqliteRebuild]
      · simp [hb]

theorem loadModuleFuel_spawn_bound (imports : Nat → ImportResult) (env : RebuildEnv) :
    ∀ fuel att idx,
      (loadModuleFuel imports env fuel att idx).2.2 ≤ 1 ∧
      ((loadModuleFuel imports env fuel att idx).2.2 = 1 →
        env.allowRebuild = true ∧ (loadModuleFuel imports env fuel att idx).2.1 = true) ∧
      (env.allowRebuild = false → (loadModuleFuel imports env fuel att idx).2.2 = 0) := by
  intro fuel
  induction fuel with
  | zero => intro att idx; simp [loadModuleFuel]
  | succ n ih =>
    intro att idx
    simp only [loadModuleFuel]
    cases imports idx with
    | ok exposes => cases exposes <;> simp
    | err m =>
      by_cases hb : isSqliteBindingError m = true
      · cases att with
        | true => simp [hb, attemptSqliteRebuild]
        | false =>
          cases ha : env.allowRebuild with
          | false => simp [hb, attemptSqliteRebuild, ha]
          | true =>
            cases hspawn : (env.spawnExitCode == some 0) with
            | false => simp [hb, attemptSqliteRebuild, ha, hspawn]
            | true =>
              have hrec := loadModuleFuel_attempted imports env n (idx + 1)
              simp [hb, attemptSqliteRebuild, ha, hspawn, hrec.1, hrec.2]
      · simp [hb]

theorem loadModuleFuel_error_flag (imports : Nat → ImportResult) (env : RebuildEnv) :
    ∀ fuel att idx e att2 s,
      loadModuleFuel imports env fuel att idx = (.error e, att2, s) →
      e.isCookieSyncError = true := by
  intro fuel
  induction fuel with
  | zero =>
    intro att idx e att2 s h
    simp only [loadModuleFuel, Prod.mk.injEq, Except.error.injEq] at h
    rw [← h.1]
    rfl
  | succ n ih =>
    intro att idx e att2 s h
    simp only [loadModuleFuel] at h
    cases him : imports idx with
    | ok exposes =>
      rw [him] at h
      cases exposes with
      | true => simp at h
      | false =>
        simp only [Bool.false_eq_true, if_false, Prod.mk.injEq, Except.error.injEq] at h
        rw [← h.1]
        rfl
    | err m =>
      rw [him] at h
      by_cases hb : isSqliteBindingError m = true
      · simp only [hb, if_true] at h
        rcases hat : attemptSqliteRebuild env att with ⟨rebuilt, att3, sp⟩
        rw [hat] at h
        simp only [] at h
        cases rebuilt with
        | false =>
          simp only [Bool.false_eq_true, if_false, Prod.mk.injEq, Except.error.injEq] at h
          rw [← h.1]
          rfl
        | true =>
          simp only [if_true] at h
          rcases hrec : loadModuleFuel imports env n att3 (idx + 1) with ⟨res2, a4, s4⟩
          rw [hrec] at h
          simp only [Prod.mk.injEq] at h
          rw [h.1] at hrec
          exact ih att3 (idx + 1) e a4 s4 hrec
      · simp only [hb, Bool.false_eq_true, if_false, Prod.mk.injEq, Except.error.injEq] at h
        rw [← h.1]
        rfl

theorem processLoads_true (env : RebuildEnv) :
    ∀ calls, (processLoads env true calls).2 = 0 := by
  intro calls
  induction calls with
  | nil => rfl
  | cons im rest ih =>
    simp only [processLoads]
    have h := loadModuleFuel_attempted im env 2 0
    rcases hl : loadChromeCookiesModule im env true with ⟨res, att2, s⟩
    unfold loadChromeCookiesModule at hl
    rw [hl] at h
    simp only [] at h
    simp [h.1, h.2, ih]

/-- C9: across a whole process lifetime (any sequence of module-load calls
threading the attemptedSqliteRebuild flag), at most one rebuild subprocess is
ever spawned; none is spawned unless ORACLE_ALLOW_SQLITE_REBUILD is set to 1;
and whenever the module cannot be loaded (no successful rebuild makes a retry
succeed), the raised error is the distinguishable ChromeCookieSyncError. -/
theorem sqliteRebuild_once_and_gated :
    ∀ (env : RebuildEnv) (att : Bool) (calls : List (Nat → ImportResult)),
      (processLoads env att calls).2 ≤ 1 ∧
      (env.allowRebuild = false → (processLoads env att calls).2 = 0) ∧
      (∀ (imports : Nat → ImportResult) (e : SyncError) (att2 : Bool) (s : Nat),
        loadChromeCookiesModule imports env att = (.error e, att2, s) →
        e.isCookieSyncError = true) := by
  intro env att calls
  refine ⟨?_, ?_, ?_⟩
  · induction calls generalizing att with
    | nil => simp [processLoads]
    | cons im rest ih =>
      simp only [processLoads]
      rcases hl : loadChromeCookiesModule im env att with ⟨res, att2, s⟩
      simp only []
      have hb := loadModuleFuel_spawn_bound im env 2 att 0
      unfold loadChromeCookiesModule at hl
      rw [hl] at hb
      simp only [] at hb
      rcases Nat.lt_or_ge s 1 with hs | hs
      · have hs0 : s = 0 := by omega
        subst hs0
        simpa using ih att2
      · have hs1 : s = 1 := by
          have := hb.1
          omega
        subst hs1
        obtain ⟨hallow, hatt⟩ := hb.2.1 rfl
        subst hatt
        simp [processLoads_true env rest]
  · intro hallow
    induction calls generalizing att with
    | nil => rfl
    | cons im rest ih =>
      simp only [processLoads]
      rcases hl : loadChromeCookiesModule im env att with ⟨res, att2, s⟩
      simp only []
      have hb := loadModuleFuel_spawn_bound im env 2 att 0
      unfold loadChromeCookiesModule at hl
      rw [hl] at hb
      simp only [] at hb
      have hs0 := hb.2.2 hallow
      simp [hs0, ih att2]
  · intro imports e att2 s h
    unfold loadChromeCookiesModule at h
    exact loadModuleFuel_error_flag imports env 2 att 0 e att2 s h

/-- C9 (witness): a process whose only load fails with a bindings error under
the default (disabled) environment gate: no spawn happens and the raised error
is the flagged module-load failure. -/
theorem sqliteRebuild_once_and_gated_witness :
    (processLoads rebuildEnvDenied false [importsAlwaysBindingFail]).2 ≤ 1 ∧
    (processLoads rebuildEnvDenied false [importsAlwaysBindingFail]).2 = 0 ∧
    unableToLoadError.isCookieSyncError = true :=
  ⟨(sqliteRebuild_once_and_gated rebuildEnvDenied false [importsAlwaysBindingFail]).1,
   (sqliteRebuild_once_and_gated rebuildEnvDenied false [importsAlwaysBindingFail]).2.1 rfl,
   (sqliteRebuild_once_and_gated rebuildEnvDenied false [importsAlwaysBindingFail]).2.2
     importsAlwaysBindingFail unableToLoadError true 0 rfl⟩


theorem waitForSettleGo_time_le (ex : Nat → Option SettleSnapshot) (st : Nat → Bool) :
    ∀ fuel t latest lastLen,
      (waitForSettleGo ex st fuel t latest lastLen).2.1 ≤
        max t (settleWindowMs + settleIntervalMs) := by
  intro fuel
  induction fuel with
  | zero => intro t latest lastLen; simp [waitForSettleGo]
  | succ n ih =>
    intro t latest lastLen
    simp only [waitForSettleGo]
    by_cases hw : t < settleWindowMs
    · rw [if_pos hw]
      by_cases hst : st (t + settleIntervalMs) = true
      · rw [if_pos hst]
        simp only []
        refine le_trans (le_trans (ih (t + settleIntervalMs) _ _) ?_) (le_max_right _ _)
        apply max_le
        · simp only [settleWindowMs, settleIntervalMs] at hw ⊢
          omega
        · exact le_refl _
      · rw [if_neg hst]
        simp only []
        refine le_trans ?_ (le_max_right _ _)
        simp only [settleWindowMs, settleIntervalMs] at hw ⊢
        omega
    · rw [if_neg hw]
      simp [le_max_left]

theorem waitForSettleGo_len (ex : Nat → Option SettleSnapshot) (st : Nat → Bool) :
    ∀ fuel t latest lastLen, lastLen = latest.text.length →
      latest.text.length ≤ (waitForSettleGo ex st fuel t latest lastLen).1.text.length := by
  intro fuel
  induction fuel with
  | zero => intro t latest lastLen _; simp [waitForSettleGo]
  | succ n ih =>
    intro t latest lastLen hinv
    simp only [waitForSettleGo]
    by_cases hw : t < settleWindowMs
    · rw [if_pos hw]
      cases hex : ex (t + settleIntervalMs) with
      | none =>
        simp only [hex]
        by_cases hst : st (t + settleIntervalMs) = true
        · rw [if_pos hst]
          simp only []
          exact ih (t + settleIntervalMs) latest lastLen hinv
        · rw [if_neg hst]
      | some r =>
        simp only [hex]
        by_cases hle : lastLen ≤ r.text.length
        · rw [if_pos hle]
          by_cases hst : st (t + settleIntervalMs) = true
          · rw [if_pos hst]
            simp only []
            have hrec := ih (t + settleIntervalMs) r r.text.length rfl
            have hlen : latest.text.length ≤ r.text.length := hinv ▸ hle
            exact le_trans hlen hrec
          · rw [if_neg hst]
            simp only []
            exact hinv ▸ hle
        · rw [if_neg hle]
          by_cases hst : st (t + settleIntervalMs) = true
          · rw [if_pos hst]
            simp only []
            exact ih (t + settleIntervalMs) latest lastLen hinv
          · rw [if_neg hst]
    · rw [if_neg hw]

theorem waitForSettleGo_samples (ex : Nat → Option SettleSnapshot) (st : Nat → Bool) :
    ∀ fuel t latest lastLen u,
      u ∈ (waitForSettleGo ex st fuel t latest lastLen).2.2 →
      st u = true ∨ u = (waitForSettleGo ex st fuel t latest lastLen).2.1 := by
  intro fuel
  induction fuel with
  | zero => intro t latest lastLen u hu; simp [waitForSettleGo] at hu
  | succ n ih =>
    intro t latest lastLen u hu
    simp only [waitForSettleGo] at hu ⊢
    by_cases hw : t < settleWindowMs
    · rw [if_pos hw] at hu ⊢
      by_cases hst : st (t + settleIntervalMs) = true
      · rw [if_pos hst] at hu ⊢
        simp only [List.mem_cons] at hu
        rcases hu with hu | hu
        · exact Or.inl (hu ▸ hst)
        · exact ih (t + settleIntervalMs) _ _ u hu
      · rw [if_neg hst] at hu ⊢
        simp only [List.mem_singleton] at hu
        exact Or.inr hu
    · rw [if_neg hw] at hu
      simp at hu

/-- C7: the settle window of the response wait.  In the scenario of the spec
(text Hi there present from entry, stop indicator visible for 2 seconds) the
window re-extracts every 400 ms at times 400 to 2000 and returns Hi there at
time 2000, when the indicator has just disappeared, not at first detection at
time 0.  In general the window exits within settleWindowMs plus one
settleIntervalMs of entry, keeps an extraction at least as long as the initial
one (longest-so-far), and continues past a sample only while the
stop-generating indicator is still visible there. -/
theorem waitForSettle_settle_window :
    waitForSettle scenarioExtract scenarioStopVisible { text := "Hi there" } =
      ({ text := "Hi there" }, 2000, [400, 800, 1200, 1600, 2000]) ∧
    (∀ ex st snap, (waitForSettle ex st snap).2.1 ≤ settleWindowMs + settleIntervalMs) ∧
    (∀ ex st snap, snap.text.length ≤ (waitForSettle ex st snap).1.text.length) ∧
    (∀ ex st snap u, u ∈ (waitForSettle ex st snap).2.2 →
      st u = true ∨ u = (waitForSettle ex st snap).2.1) := by
  refine ⟨by decide, ?_, ?_, ?_⟩
  · intro ex st snap
    have h := waitForSettleGo_time_le ex st settleFuel 0 snap snap.text.length
    simpa [waitForSettle] using h
  · intro ex st snap
    exact waitForSettleGo_len ex st settleFuel 0 snap snap.text.length rfl
  · intro ex st snap u hu
    exact waitForSettleGo_samples ex st settleFuel 0 snap snap.text.length u hu

/-- C7 (witness): in the concrete scenario the loop continued past the sample
at 400 ms because the stop indicator was still visible there. -/
theorem waitForSettle_settle_window_witness :
    scenarioStopVisible 400 = true ∨
    400 = (waitForSettle scenarioExtract scenarioStopVisible { text := "Hi there" }).2.1 :=
  waitForSettle_settle_window.2.2.2 scenarioExtract scenarioStopVisible
    { text := "Hi there" } 400 (by decide)

end Oracle
